import Mathlib

/-!
Shallow embedding of the University-management-system backend
(FastAPI + SQLModel routes in `src/app/routes/*.py`, data model in
`src/app/models.py`).

The record store is modelled as lists of rows with per-table id counters
(ids are assigned monotonically by the store).  Each route handler becomes
a pure function from (authenticated principal, request payload, store) to
(Except ApiError result, store): every `raise HTTPException` in the source
becomes an `.error` return carrying the same status class and detail
string, evaluated in the same order as the source, and the store is
returned unchanged on those paths because the source raises before any
`session.add`/`session.commit`.  Timestamps are opaque `Nat` clock values;
handlers that stamp a `default_factory=datetime.utcnow` column take the
current clock as an explicit `now` argument.  The numeric domain of
`salary` (a Python float never computed with) is abstracted to `Int`.
Option fields of update payloads model pydantic's `exclude_unset`: `none`
means the field was not provided in the request body.
-/

namespace UMS

/-- `UserRole` enum from `models.py`. -/
inductive UserRole where
  | admin
  | student
  | instructor
deriving DecidableEq, Repr

/-- `GenderEnum` from `models.py`. -/
inductive GenderEnum where
  | male
  | female
  | other
deriving DecidableEq, Repr

/-- `CourseStatusEnum` from `models.py`. -/
inductive CourseStatusEnum where
  | active
  | inactive
  | completed
deriving DecidableEq, Repr

/-- `EnrollmentStatusEnum` from `models.py`. -/
inductive EnrollmentStatusEnum where
  | enrolled
  | completed
  | dropped
  | failed
deriving DecidableEq, Repr

/-- A `User` table row (`UserBase` + `User` in `models.py`). -/
structure UserRec where
  id : Nat
  email : String
  first_name : String
  last_name : String
  phone : Option String
  role : UserRole
  is_active : Bool
  hashed_password : String
  created_at : Nat
  updated_at : Option Nat
deriving DecidableEq, Repr

/-- A `Student` table row (`StudentBase` + `Student` in `models.py`). -/
structure StudentRec where
  id : Nat
  user_id : Nat
  student_id : String
  date_of_birth : Option Nat
  gender : Option GenderEnum
  address : Option String
  emergency_contact : Option String
  enrollment_date : Nat
deriving DecidableEq, Repr

/-- An `Instructor` table row (`InstructorBase` + `Instructor` in `models.py`). -/
structure InstructorRec where
  id : Nat
  user_id : Nat
  employee_id : String
  department : String
  hire_date : Nat
  salary : Option Int
  office_location : Option String
deriving DecidableEq, Repr

/-- A `Course` table row (`CourseBase` + `Course` in `models.py`). -/
structure CourseRec where
  id : Nat
  course_code : String
  title : String
  description : Option String
  credits : Int
  instructor_id : Nat
  max_students : Int
  status : CourseStatusEnum
  created_at : Nat
deriving DecidableEq, Repr

/-- An `Enrollment` table row (`EnrollmentBase` + `Enrollment` in `models.py`). -/
structure EnrollmentRec where
  id : Nat
  student_id : Nat
  course_id : Nat
  enrollment_date : Nat
  status : EnrollmentStatusEnum
  grade : Option String
deriving DecidableEq, Repr

/-- The relational store: five tables plus the monotone id counter of each. -/
structure Store where
  users : List UserRec
  students : List StudentRec
  instructors : List InstructorRec
  courses : List CourseRec
  enrollments : List EnrollmentRec
  next_user_id : Nat
  next_student_id : Nat
  next_instructor_id : Nat
  next_course_id : Nat
  next_enrollment_id : Nat
deriving DecidableEq, Repr

/-- The empty store the API starts from. -/
def emptyStore : Store :=
  { users := [], students := [], instructors := [], courses := [],
    enrollments := [],
    next_user_id := 1, next_student_id := 1, next_instructor_id := 1,
    next_course_id := 1, next_enrollment_id := 1 }

/-- `select(User).where(User.id == uid)).first()`. -/
def findUserById (s : Store) (uid : Nat) : Option UserRec :=
  s.users.find? (fun u => u.id == uid)

/-- `select(User).where(User.email == email)).first()`. -/
def findUserByEmail (s : Store) (email : String) : Option UserRec :=
  s.users.find? (fun u => u.email == email)

/-- `select(Student).where(Student.id == sid)).first()`. -/
def findStudentById (s : Store) (sid : Nat) : Option StudentRec :=
  s.students.find? (fun st => st.id == sid)

/-- `select(Student).where(Student.student_id == k)).first()`. -/
def findStudentByNaturalKey (s : Store) (k : String) : Option StudentRec :=
  s.students.find? (fun st => st.student_id == k)

/-- `select(Instructor).where(Instructor.id == iid)).first()`. -/
def findInstructorById (s : Store) (iid : Nat) : Option InstructorRec :=
  s.instructors.find? (fun i => i.id == iid)

/-- `select(Instructor).where(Instructor.employee_id == k)).first()`. -/
def findInstructorByEmployeeId (s : Store) (k : String) : Option InstructorRec :=
  s.instructors.find? (fun i => i.employee_id == k)

/-- `select(Course).where(Course.id == cid)).first()`. -/
def findCourseById (s : Store) (cid : Nat) : Option CourseRec :=
  s.courses.find? (fun c => c.id == cid)

/-- `select(Course).where(Course.course_code == k)).first()`. -/
def findCourseByCode (s : Store) (k : String) : Option CourseRec :=
  s.courses.find? (fun c => c.course_code == k)

/-- `select(Enrollment).where(Enrollment.id == eid)).first()`. -/
def findEnrollmentById (s : Store) (eid : Nat) : Option EnrollmentRec :=
  s.enrollments.find? (fun e => e.id == eid)

/-- The active-duplicate query of `create_enrollment`:
`select(Enrollment).where(student_id == sid, course_id == cid,
status == ENROLLED)).first()`. -/
def findActiveEnrollment (s : Store) (sid cid : Nat) : Option EnrollmentRec :=
  s.enrollments.find? (fun e =>
    e.student_id == sid && e.course_id == cid
      && e.status == EnrollmentStatusEnum.enrolled)

/-- The capacity query: `select(func.count(Enrollment.id)).where(course_id ==
cid, status == ENROLLED)`. -/
def enrolledCount (s : Store) (cid : Nat) : Nat :=
  (s.enrollments.filter (fun e =>
    e.course_id == cid && e.status == EnrollmentStatusEnum.enrolled)).length

/-- HTTP error classes raised by the routes, with their detail strings. -/
inductive ApiError where
  | notFound (detail : String)
  | forbidden (detail : String)
  | badRequest (detail : String)
  | unauthorized (detail : String)
deriving DecidableEq, Repr

/-- A handler's outcome: the HTTP-level result together with the store after
the request (unchanged whenever an error was raised, because the source
raises before any commit). -/
abbrev ApiResult (α : Type) := Except ApiError α × Store

/-- The credential service's password hashing, an external black box
(`get_password_hash` in `app/auth.py`); only its output's opacity matters. -/
def get_password_hash (password : String) : String :=
  String.append "bcrypt$" password

/-- `UserCreate` request model: `UserBase` fields plus the password. -/
structure UserCreate where
  email : String
  first_name : String
  last_name : String
  phone : Option String
  role : UserRole
  password : String
deriving DecidableEq, Repr

/-- `StudentCreate` request model (= `StudentBase`). -/
structure StudentCreate where
  user_id : Nat
  student_id : String
  date_of_birth : Option Nat
  gender : Option GenderEnum
  address : Option String
  emergency_contact : Option String
  enrollment_date : Nat
deriving DecidableEq, Repr

/-- `InstructorCreate` request model (= `InstructorBase`). -/
structure InstructorCreate where
  user_id : Nat
  employee_id : String
  department : String
  hire_date : Nat
  salary : Option Int
  office_location : Option String
deriving DecidableEq, Repr

/-- `CourseCreate` request model (= `CourseBase`). -/
structure CourseCreate where
  course_code : String
  title : String
  description : Option String
  credits : Int
  instructor_id : Nat
  max_students : Int
  status : CourseStatusEnum
deriving DecidableEq, Repr

/-- `EnrollmentCreate` request model: only the two foreign keys, nothing
else is accepted from the caller. -/
structure EnrollmentCreate where
  student_id : Nat
  course_id : Nat
deriving DecidableEq, Repr

/-- `StudentUpdate` request model; `none` = field not provided. -/
structure StudentUpdate where
  date_of_birth : Option Nat
  gender : Option GenderEnum
  address : Option String
  emergency_contact : Option String
deriving DecidableEq, Repr

/-- `InstructorUpdate` request model; `none` = field not provided. -/
structure InstructorUpdate where
  department : Option String
  salary : Option Int
  office_location : Option String
deriving DecidableEq, Repr

/-- `CourseUpdate` request model; `none` = field not provided. -/
structure CourseUpdate where
  title : Option String
  description : Option String
  credits : Option Int
  instructor_id : Option Nat
  max_students : Option Int
  status : Option CourseStatusEnum
deriving DecidableEq, Repr

/-- `EnrollmentUpdate` request model; `none` = field not provided. -/
structure EnrollmentUpdate where
  status : Option EnrollmentStatusEnum
  grade : Option String
deriving DecidableEq, Repr

/-- `POST /auth/register` (`register_user` in `routes/auth.py`): reject a
taken email with 400, otherwise insert the new user. -/
def register_user (now : Nat) (user_data : UserCreate) (s : Store) :
    ApiResult UserRec :=
  match findUserByEmail s user_data.email with
  | some _ => (.error (.badRequest "Email already registered"), s)
  | none =>
    let db_user : UserRec :=
      { id := s.next_user_id
        email := user_data.email
        first_name := user_data.first_name
        last_name := user_data.last_name
        phone := user_data.phone
        role := user_data.role
        is_active := true
        hashed_password := get_password_hash user_data.password
        created_at := now
        updated_at := none }
    (.ok db_user,
      { s with users := s.users ++ [db_user],
               next_user_id := s.next_user_id + 1 })

/-- `POST /students/` (`create_student` in `routes/students.py`):
authorization (admin or self), then student_id uniqueness, then referenced
User existence, then role match, then insert. -/
def create_student (current_user : UserRec) (student_data : StudentCreate)
    (s : Store) : ApiResult StudentRec :=
  if current_user.role ≠ UserRole.admin ∧ current_user.id ≠ student_data.user_id then
    (.error (.forbidden "Not authorized to create student profile"), s)
  else
    match findStudentByNaturalKey s student_data.student_id with
    | some _ => (.error (.badRequest "Student ID already exists"), s)
    | none =>
      match findUserById s student_data.user_id with
      | none => (.error (.notFound "User not found"), s)
      | some user =>
        if user.role ≠ UserRole.student then
          (.error (.badRequest "User must have student role"), s)
        else
          let db_student : StudentRec :=
            { id := s.next_student_id
              user_id := student_data.user_id
              student_id := student_data.student_id
              date_of_birth := student_data.date_of_birth
              gender := student_data.gender
              address := student_data.address
              emergency_contact := student_data.emergency_contact
              enrollment_date := student_data.enrollment_date }
          (.ok db_student,
            { s with students := s.students ++ [db_student],
                     next_student_id := s.next_student_id + 1 })

/-- `PUT /students/{id}` (`update_student`): existence, then authorization
(admin or the student themselves), then apply only provided fields. -/
def update_student (current_user : UserRec) (student_id : Nat)
    (student_update : StudentUpdate) (s : Store) : ApiResult StudentRec :=
  match findStudentById s student_id with
  | none => (.error (.notFound "Student not found"), s)
  | some student =>
    if current_user.role ≠ UserRole.admin ∧ current_user.id ≠ student.user_id then
      (.error (.forbidden "Not authorized to update this student"), s)
    else
      let updated : StudentRec :=
        { student with
          date_of_birth :=
            match student_update.date_of_birth with
            | some v => some v
            | none => student.date_of_birth
          gender :=
            match student_update.gender with
            | some v => some v
            | none => student.gender
          address :=
            match student_update.address with
            | some v => some v
            | none => student.address
          emergency_contact :=
            match student_update.emergency_contact with
            | some v => some v
            | none => student.emergency_contact }
      (.ok updated,
        { s with students :=
            s.students.map (fun x => if x.id == student_id then updated else x) })

/-- `DELETE /students/{id}` (`delete_student`): authorization (admin only)
BEFORE existence, then hard delete. -/
def delete_student (current_user : UserRec) (student_id : Nat) (s : Store) :
    ApiResult String :=
  if current_user.role ≠ UserRole.admin then
    (.error (.forbidden "Not authorized to delete students"), s)
  else
    match findStudentById s student_id with
    | none => (.error (.notFound "Student not found"), s)
    | some _ =>
      (.ok "Student deleted successfully",
        { s with students := s.students.filter (fun x => !(x.id == student_id)) })

/-- `POST /instructors/` (`create_instructor` in `routes/instructors.py`):
authorization (admin only), then employee_id uniqueness, then referenced
User existence, then role match, then insert. -/
def create_instructor (current_user : UserRec)
    (instructor_data : InstructorCreate) (s : Store) : ApiResult InstructorRec :=
  if current_user.role ≠ UserRole.admin then
    (.error (.forbidden "Not authorized to create instructor profile"), s)
  else
    match findInstructorByEmployeeId s instructor_data.employee_id with
    | some _ => (.error (.badRequest "Employee ID already exists"), s)
    | none =>
      match findUserById s instructor_data.user_id with
      | none => (.error (.notFound "User not found"), s)
      | some user =>
        if user.role ≠ UserRole.instructor then
          (.error (.badRequest "User must have instructor role"), s)
        else
          let db_instructor : InstructorRec :=
            { id := s.next_instructor_id
              user_id := instructor_data.user_id
              employee_id := instructor_data.employee_id
              department := instructor_data.department
              hire_date := instructor_data.hire_date
              salary := instructor_data.salary
              office_location := instructor_data.office_location }
          (.ok db_instructor,
            { s with instructors := s.instructors ++ [db_instructor],
                     next_instructor_id := s.next_instructor_id + 1 })

/-- `GET /instructors/` (`get_instructors`): no authorization check at all;
returns the page of full instructor rows. -/
def get_instructors (_current_user : UserRec) (skip limit : Nat) (s : Store) :
    ApiResult (List InstructorRec) :=
  (.ok ((s.instructors.drop skip).take limit), s)

/-- `GET /instructors/{id}` (`get_instructor`): 404 when absent, otherwise
the full row; no authorization check. -/
def get_instructor (_current_user : UserRec) (instructor_id : Nat) (s : Store) :
    ApiResult InstructorRec :=
  match findInstructorById s instructor_id with
  | none => (.error (.notFound "Instructor not found"), s)
  | some instructor => (.ok instructor, s)

/-- `PUT /instructors/{id}` (`update_instructor`): existence, then
authorization (admin or self), then apply only provided fields. -/
def update_instructor (current_user : UserRec) (instructor_id : Nat)
    (instructor_update : InstructorUpdate) (s : Store) : ApiResult InstructorRec :=
  match findInstructorById s instructor_id with
  | none => (.error (.notFound "Instructor not found"), s)
  | some instructor =>
    if current_user.role ≠ UserRole.admin ∧ current_user.id ≠ instructor.user_id then
      (.error (.forbidden "Not authorized to update this instructor"), s)
    else
      let updated : InstructorRec :=
        { instructor with
          department :=
            match instructor_update.department with
            | some v => v
            | none => instructor.department
          salary :=
            match instructor_update.salary with
            | some v => some v
            | none => instructor.salary
          office_location :=
            match instructor_update.office_location with
            | some v => some v
            | none => instructor.office_location }
      (.ok updated,
        { s with instructors :=
            s.instructors.map (fun x => if x.id == instructor_id then updated else x) })

/-- `DELETE /instructors/{id}` (`delete_instructor`): authorization (admin
only) BEFORE existence, then hard delete. -/
def delete_instructor (current_user : UserRec) (instructor_id : Nat)
    (s : Store) : ApiResult String :=
  if current_user.role ≠ UserRole.admin then
    (.error (.forbidden "Not authorized to delete instructors"), s)
  else
    match findInstructorById s instructor_id with
    | none => (.error (.notFound "Instructor not found"), s)
    | some _ =>
      (.ok "Instructor deleted successfully",
        { s with instructors :=
            s.instructors.filter (fun x => !(x.id == instructor_id)) })

/-- `POST /courses/` (`create_course` in `routes/courses.py`): authorization
(admin only), then course_code uniqueness, then instructor existence, then
insert. -/
def create_course (current_user : UserRec) (course_data : CourseCreate)
    (now : Nat) (s : Store) : ApiResult CourseRec :=
  if current_user.role ≠ UserRole.admin then
    (.error (.forbidden "Not authorized to create courses"), s)
  else
    match findCourseByCode s course_data.course_code with
    | some _ => (.error (.badRequest "Course code already exists"), s)
    | none =>
      match findInstructorById s course_data.instructor_id with
      | none => (.error (.notFound "Instructor not found"), s)
      | some _ =>
        let db_course : CourseRec :=
          { id := s.next_course_id
            course_code := course_data.course_code
            title := course_data.title
            description := course_data.description
            credits := course_data.credits
            instructor_id := course_data.instructor_id
            max_students := course_data.max_students
            status := course_data.status
            created_at := now }
        (.ok db_course,
          { s with courses := s.courses ++ [db_course],
                   next_course_id := s.next_course_id + 1 })

/-- `PUT /courses/{id}` (`update_course`): existence, then authorization
(admin or the course's owning instructor), then apply only provided
fields. -/
def update_course (current_user : UserRec) (course_id : Nat)
    (course_update : CourseUpdate) (s : Store) : ApiResult CourseRec :=
  match findCourseById s course_id with
  | none => (.error (.notFound "Course not found"), s)
  | some course =>
    let instructor := findInstructorById s course.instructor_id
    if current_user.role ≠ UserRole.admin ∧
        instructor.all (fun i => current_user.id != i.user_id) = true then
      (.error (.forbidden "Not authorized to update this course"), s)
    else
      let updated : CourseRec :=
        { course with
          title :=
            match course_update.title with
            | some v => v
            | none => course.title
          description :=
            match course_update.description with
            | some v => some v
            | none => course.description
          credits :=
            match course_update.credits with
            | some v => v
            | none => course.credits
          instructor_id :=
            match course_update.instructor_id with
            | some v => v
            | none => course.instructor_id
          max_students :=
            match course_update.max_students with
            | some v => v
            | none => course.max_students
          status :=
            match course_update.status with
            | some v => v
            | none => course.status }
      (.ok updated,
        { s with courses :=
            s.courses.map (fun x => if x.id == course_id then updated else x) })

/-- `DELETE /courses/{id}` (`delete_course`): authorization (admin only)
BEFORE existence, then hard delete. -/
def delete_course (current_user : UserRec) (course_id : Nat) (s : Store) :
    ApiResult String :=
  if current_user.role ≠ UserRole.admin then
    (.error (.forbidden "Not authorized to delete courses"), s)
  else
    match findCourseById s course_id with
    | none => (.error (.notFound "Course not found"), s)
    | some _ =>
      (.ok "Course deleted successfully",
        { s with courses := s.courses.filter (fun x => !(x.id == course_id)) })

/-- `POST /enrollments/` (`create_enrollment` in `routes/enrollments.py`):
student existence, course existence, authorization (admin, the student
themselves, or the course's owning instructor), active-duplicate check,
capacity check, then insert with status=enrolled, no grade, date=now. -/
def create_enrollment (current_user : UserRec)
    (enrollment_data : EnrollmentCreate) (now : Nat) (s : Store) :
    ApiResult EnrollmentRec :=
  match findStudentById s enrollment_data.student_id with
  | none => (.error (.notFound "Student not found"), s)
  | some student =>
    match findCourseById s enrollment_data.course_id with
    | none => (.error (.notFound "Course not found"), s)
    | some course =>
      let instructor := findInstructorById s course.instructor_id
      if current_user.role ≠ UserRole.admin ∧
          current_user.id ≠ student.user_id ∧
          instructor.all (fun i => current_user.id != i.user_id) = true then
        (.error (.forbidden "Not authorized to create enrollment"), s)
      else
        match findActiveEnrollment s enrollment_data.student_id
            enrollment_data.course_id with
        | some _ =>
          (.error (.badRequest "Student is already enrolled in this course"), s)
        | none =>
          if (enrolledCount s enrollment_data.course_id : Int) ≥
              course.max_students then
            (.error (.badRequest "Course is full"), s)
          else
            let db_enrollment : EnrollmentRec :=
              { id := s.next_enrollment_id
                student_id := enrollment_data.student_id
                course_id := enrollment_data.course_id
                enrollment_date := now
                status := EnrollmentStatusEnum.enrolled
                grade := none }
            (.ok db_enrollment,
              { s with enrollments := s.enrollments ++ [db_enrollment],
                       next_enrollment_id := s.next_enrollment_id + 1 })

/-- `PUT /enrollments/{id}` (`update_enrollment`): existence, then the
three-branch authorization (admin any field; student-owner only
status→dropped; course's owning instructor any field), then apply only
provided fields. -/
def update_enrollment (current_user : UserRec) (enrollment_id : Nat)
    (enrollment_update : EnrollmentUpdate) (s : Store) : ApiResult EnrollmentRec :=
  match findEnrollmentById s enrollment_id with
  | none => (.error (.notFound "Enrollment not found"), s)
  | some enrollment =>
    let student := findStudentById s enrollment.student_id
    let course := findCourseById s enrollment.course_id
    let instructor :=
      match course with
      | some c => findInstructorById s c.instructor_id
      | none => none
    let apply : ApiResult EnrollmentRec :=
      let updated : EnrollmentRec :=
        { enrollment with
          status :=
            match enrollment_update.status with
            | some v => v
            | none => enrollment.status
          grade :=
            match enrollment_update.grade with
            | some v => some v
            | none => enrollment.grade }
      (.ok updated,
        { s with enrollments :=
            s.enrollments.map (fun x => if x.id == enrollment_id then updated else x) })
    if current_user.role = UserRole.admin then
      apply
    else
      match student with
      | some st =>
        if current_user.id = st.user_id then
          match enrollment_update.status with
          | some v =>
            if v ≠ EnrollmentStatusEnum.dropped then
              (.error (.forbidden "Students can only drop courses"), s)
            else apply
          | none => apply
        else
          match instructor with
          | some i =>
            if current_user.id = i.user_id then apply
            else (.error (.forbidden "Not authorized to update this enrollment"), s)
          | none =>
            (.error (.forbidden "Not authorized to update this enrollment"), s)
      | none =>
        match instructor with
        | some i =>
          if current_user.id = i.user_id then apply
          else (.error (.forbidden "Not authorized to update this enrollment"), s)
        | none =>
          (.error (.forbidden "Not authorized to update this enrollment"), s)

/-- `DELETE /enrollments/{id}` (`delete_enrollment`): authorization (admin
only) BEFORE existence, then hard delete. -/
def delete_enrollment (current_user : UserRec) (enrollment_id : Nat)
    (s : Store) : ApiResult String :=
  if current_user.role ≠ UserRole.admin then
    (.error (.forbidden "Not authorized to delete enrollments"), s)
  else
    match findEnrollmentById s enrollment_id with
    | none => (.error (.notFound "Enrollment not found"), s)
    | some _ =>
      (.ok "Enrollment deleted successfully",
        { s with enrollments :=
            s.enrollments.filter (fun x => !(x.id == enrollment_id)) })

/-! ### Concrete fixtures

A small population built exclusively through the API operations, used as
concrete inputs for witnesses and counterexamples.  All clock values are 0.
-/

/-- Registration payload for an admin account. -/
def regAdmin : UserCreate :=
  { email := "a@x", first_name := "Ada", last_name := "Dean", phone := none,
    role := UserRole.admin, password := "p" }

/-- Registration payload for an instructor account. -/
def regInstr : UserCreate :=
  { email := "i@x", first_name := "Ira", last_name := "Prof", phone := none,
    role := UserRole.instructor, password := "q" }

/-- Registration payload for student account A. -/
def regStudA : UserCreate :=
  { email := "sa@x", first_name := "Sam", last_name := "Alpha", phone := none,
    role := UserRole.student, password := "r" }

/-- Registration payload for student account B. -/
def regStudB : UserCreate :=
  { email := "sb@x", first_name := "Sue", last_name := "Beta", phone := none,
    role := UserRole.student, password := "t" }

/-- The admin user row produced by registering `regAdmin` first. -/
def cAdmin : UserRec :=
  { id := 1, email := "a@x", first_name := "Ada", last_name := "Dean",
    phone := none, role := UserRole.admin, is_active := true,
    hashed_password := get_password_hash "p", created_at := 0,
    updated_at := none }

/-- The instructor user row produced by registering `regInstr` second. -/
def cInstrUser : UserRec :=
  { id := 2, email := "i@x", first_name := "Ira", last_name := "Prof",
    phone := none, role := UserRole.instructor, is_active := true,
    hashed_password := get_password_hash "q", created_at := 0,
    updated_at := none }

/-- The student user row produced by registering `regStudA` third. -/
def cStudAUser : UserRec :=
  { id := 3, email := "sa@x", first_name := "Sam", last_name := "Alpha",
    phone := none, role := UserRole.student, is_active := true,
    hashed_password := get_password_hash "r", created_at := 0,
    updated_at := none }

/-- The student user row produced by registering `regStudB` fourth. -/
def cStudBUser : UserRec :=
  { id := 4, email := "sb@x", first_name := "Sue", last_name := "Beta",
    phone := none, role := UserRole.student, is_active := true,
    hashed_password := get_password_hash "t", created_at := 0,
    updated_at := none }

/-- Store after registering the four accounts. -/
def chainS1 : Store := (register_user 0 regAdmin emptyStore).2

/-- See `chainS1`. -/
def chainS2 : Store := (register_user 0 regInstr chainS1).2

/-- See `chainS1`. -/
def chainS3 : Store := (register_user 0 regStudA chainS2).2

/-- See `chainS1`. -/
def chainS4 : Store := (register_user 0 regStudB chainS3).2

/-- Instructor-profile creation payload for user 2. -/
def mkInstr : InstructorCreate :=
  { user_id := 2, employee_id := "E1", department := "CS", hire_date := 0,
    salary := some 100, office_location := none }

/-- Store after the admin creates the instructor profile (id 1). -/
def chainS5 : Store := (create_instructor cAdmin mkInstr chainS4).2

/-- Course-creation payload: capacity 1, owned by instructor 1. -/
def mkCourse : CourseCreate :=
  { course_code := "C1", title := "Logic", description := none, credits := 3,
    instructor_id := 1, max_students := 1, status := CourseStatusEnum.active }

/-- Store after the admin creates course 1 with max_students = 1. -/
def chainS6 : Store := (create_course cAdmin mkCourse 0 chainS5).2

/-- Student-profile creation payload for user 3. -/
def mkStudA : StudentCreate :=
  { user_id := 3, student_id := "S1", date_of_birth := none, gender := none,
    address := none, emergency_contact := none, enrollment_date := 0 }

/-- Student-profile creation payload for user 4. -/
def mkStudB : StudentCreate :=
  { user_id := 4, student_id := "S2", date_of_birth := none, gender := none,
    address := none, emergency_contact := none, enrollment_date := 0 }

/-- Store after the admin creates student profile 1 (user 3). -/
def chainS7 : Store := (create_student cAdmin mkStudA chainS6).2

/-- Store after the admin creates student profile 2 (user 4). -/
def chainS8 : Store := (create_student cAdmin mkStudB chainS7).2

/-- Store after enrolling student 1 in course 1 (enrollment 1, enrolled). -/
def chainS9 : Store :=
  (create_enrollment cAdmin { student_id := 1, course_id := 1 } 0 chainS8).2

/-- Store after the admin drops enrollment 1 (status → dropped). -/
def chainS10 : Store :=
  (update_enrollment cAdmin 1
    { status := some EnrollmentStatusEnum.dropped, grade := none } chainS9).2

/-- After the drop, student 2 takes the freed seat (enrollment 2, enrolled). -/
def c2S11 : Store :=
  (create_enrollment cAdmin { student_id := 2, course_id := 1 } 0 chainS10).2

/-- The admin then sets enrollment 1 back to enrolled: the update path has no
capacity check, so course 1 now holds 2 enrolled rows against capacity 1. -/
def c2S12 : Store :=
  (update_enrollment cAdmin 1
    { status := some EnrollmentStatusEnum.enrolled, grade := none } c2S11).2

/-- After the drop, student 1 re-enrolls in course 1 (enrollment 2, enrolled). -/
def c3S11 : Store :=
  (create_enrollment cAdmin { student_id := 1, course_id := 1 } 0 chainS10).2

/-- The admin then sets enrollment 1 back to enrolled: the update path has no
active-duplicate check, so the pair (student 1, course 1) now has two
enrolled rows. -/
def c3S12 : Store :=
  (update_enrollment cAdmin 1
    { status := some EnrollmentStatusEnum.enrolled, grade := none } c3S11).2

/-- Number of status=enrolled rows for a (student, course) pair. -/
def activePairCount (s : Store) (sid cid : Nat) : Nat :=
  (s.enrollments.filter (fun e =>
    e.student_id == sid && e.course_id == cid
      && e.status == EnrollmentStatusEnum.enrolled)).length

/-- Whether a handler outcome is a success. -/
def resultOk {α : Type} : Except ApiError α → Bool
  | Except.ok _ => true
  | Except.error _ => false

/-- The instructor row created in `chainS5`. -/
def instructorRow1 : InstructorRec :=
  { id := 1, user_id := 2, employee_id := "E1", department := "CS",
    hire_date := 0, salary := some 100, office_location := none }

/-- The course row created in `chainS6` (capacity 1). -/
def courseRow1 : CourseRec :=
  { id := 1, course_code := "C1", title := "Logic", description := none,
    credits := 3, instructor_id := 1, max_students := 1,
    status := CourseStatusEnum.active, created_at := 0 }

/-- The student row created in `chainS7` (user 3). -/
def studentRow1 : StudentRec :=
  { id := 1, user_id := 3, student_id := "S1", date_of_birth := none,
    gender := none, address := none, emergency_contact := none,
    enrollment_date := 0 }

/-- The student row created in `chainS8` (user 4). -/
def studentRow2 : StudentRec :=
  { id := 2, user_id := 4, student_id := "S2", date_of_birth := none,
    gender := none, address := none, emergency_contact := none,
    enrollment_date := 0 }

/-- The enrollment row created in `chainS9`. -/
def enrollRow1 : EnrollmentRec :=
  { id := 1, student_id := 1, course_id := 1, enrollment_date := 0,
    status := EnrollmentStatusEnum.enrolled, grade := none }

/-- An update payload that provides no field. -/
def emptyStudentUpdate : StudentUpdate :=
  { date_of_birth := none, gender := none, address := none,
    emergency_contact := none }

/-- An update payload that provides no field. -/
def emptyInstructorUpdate : InstructorUpdate :=
  { department := none, salary := none, office_location := none }

/-- An update payload that provides no field. -/
def emptyCourseUpdate : CourseUpdate :=
  { title := none, description := none, credits := none,
    instructor_id := none, max_students := none, status := none }

/-- `studentRow1` after an update providing only the address. -/
def updatedStudentRow : StudentRec := { studentRow1 with address := some "elm2" }

/-- `instructorRow1` after an update providing only the salary. -/
def updatedInstructorRow : InstructorRec := { instructorRow1 with salary := some 5 }

/-- `courseRow1` after an update providing only the title. -/
def updatedCourseRow : CourseRec := { courseRow1 with title := "NewT" }

/-- `enrollRow1` after an update providing only the grade "A". -/
def updatedEnrollRow : EnrollmentRec := { enrollRow1 with grade := some "A" }

/-! ### Claim theorems -/

/-- C1 counterexample: three concrete violations of the claimed
existence → authorization → business-rule order.  (a) In `chainS4` no
course exists and the student-role user lacks delete permission, yet
deleting the nonexistent course 1 yields Forbidden, not NotFound — delete
handlers check authorization before existence.  (b) In `chainS8` the admin
creates a course whose course_code "C1" is taken and whose referenced
instructor 99 does not exist: the result is the uniqueness Conflict, not
NotFound — course creation checks uniqueness before foreign-key existence.
(c) The student-role user issuing the same request with a fresh code gets
Forbidden, not NotFound — course creation checks authorization before
existence. -/
theorem c1_counterexample_ordering_violations :
    (findCourseById chainS4 1 = none ∧
     cStudAUser.role ≠ UserRole.admin ∧
     (delete_course cStudAUser 1 chainS4).1 =
       Except.error (ApiError.forbidden "Not authorized to delete courses")) ∧
    (findInstructorById chainS8 99 = none ∧
     (create_course cAdmin
        { course_code := "C1", title := "Dup", description := none,
          credits := 3, instructor_id := 99, max_students := 30,
          status := CourseStatusEnum.active } 0 chainS8).1 =
       Except.error (ApiError.badRequest "Course code already exists")) ∧
    (findInstructorById chainS8 99 = none ∧
     cStudAUser.role ≠ UserRole.admin ∧
     (create_course cStudAUser
        { course_code := "C2", title := "Fresh", description := none,
          credits := 3, instructor_id := 99, max_students := 30,
          status := CourseStatusEnum.active } 0 chainS8).1 =
       Except.error (ApiError.forbidden "Not authorized to create courses")) := by
  refine ⟨⟨rfl, by decide, rfl⟩, ⟨rfl, rfl⟩, ⟨rfl, by decide, rfl⟩⟩

/-- C1 (amended): for the four update handlers and for enrollment creation
a missing target — the enrollment's student, or its course when the
student exists — always yields NotFound before the authorization check,
and the authorization check precedes business-rule validation: an
unauthorized enrollment creation on an existing student and course yields
Forbidden regardless of any duplicate or capacity violation, and an
unauthorized student/instructor/course creation yields Forbidden
regardless of the payload and store.  Delete operations check
authorization before existence (a non-admin always receives Forbidden),
and student/instructor/course creation checks authorization first and
natural-key uniqueness before foreign-key existence (a duplicate key
yields the Conflict even when the referenced entity is missing). -/
theorem c1_order_amended (cu : UserRec) (s : Store) (sid iid cid eid : Nat)
    (su : StudentUpdate) (iu : InstructorUpdate) (cud : CourseUpdate)
    (eu : EnrollmentUpdate) (ec : EnrollmentCreate) (now : Nat)
    (sc : StudentCreate) (ic : InstructorCreate) (cc : CourseCreate) :
    (findStudentById s sid = none →
      (update_student cu sid su s).1 =
        Except.error (ApiError.notFound "Student not found")) ∧
    (findInstructorById s iid = none →
      (update_instructor cu iid iu s).1 =
        Except.error (ApiError.notFound "Instructor not found")) ∧
    (findCourseById s cid = none →
      (update_course cu cid cud s).1 =
        Except.error (ApiError.notFound "Course not found")) ∧
    (findEnrollmentById s eid = none →
      (update_enrollment cu eid eu s).1 =
        Except.error (ApiError.notFound "Enrollment not found")) ∧
    (findStudentById s ec.student_id = none →
      (create_enrollment cu ec now s).1 =
        Except.error (ApiError.notFound "Student not found")) ∧
    (∀ st, findStudentById s ec.student_id = some st →
      findCourseById s ec.course_id = none →
      (create_enrollment cu ec now s).1 =
        Except.error (ApiError.notFound "Course not found")) ∧
    (∀ st c, findStudentById s ec.student_id = some st →
      findCourseById s ec.course_id = some c →
      cu.role ≠ UserRole.admin → cu.id ≠ st.user_id →
      (findInstructorById s c.instructor_id).all
        (fun i => cu.id != i.user_id) = true →
      (create_enrollment cu ec now s).1 =
        Except.error (ApiError.forbidden "Not authorized to create enrollment")) ∧
    (cu.role ≠ UserRole.admin → cu.id ≠ sc.user_id →
      (create_student cu sc s).1 =
        Except.error (ApiError.forbidden "Not authorized to create student profile")) ∧
    ((cu.role = UserRole.admin ∨ cu.id = sc.user_id) →
      (findStudentByNaturalKey s sc.student_id).isSome = true →
      (create_student cu sc s).1 =
        Except.error (ApiError.badRequest "Student ID already exists")) ∧
    (cu.role ≠ UserRole.admin →
      (create_instructor cu ic s).1 =
        Except.error (ApiError.forbidden "Not authorized to create instructor profile")) ∧
    (cu.role = UserRole.admin →
      (findInstructorByEmployeeId s ic.employee_id).isSome = true →
      (create_instructor cu ic s).1 =
        Except.error (ApiError.badRequest "Employee ID already exists")) ∧
    (cu.role ≠ UserRole.admin →
      (create_course cu cc now s).1 =
        Except.error (ApiError.forbidden "Not authorized to create courses")) ∧
    (cu.role = UserRole.admin →
      (findCourseByCode s cc.course_code).isSome = true →
      (create_course cu cc now s).1 =
        Except.error (ApiError.badRequest "Course code already exists")) ∧
    (cu.role ≠ UserRole.admin →
      (delete_student cu sid s).1 =
        Except.error (ApiError.forbidden "Not authorized to delete students") ∧
      (delete_instructor cu iid s).1 =
        Except.error (ApiError.forbidden "Not authorized to delete instructors") ∧
      (delete_course cu cid s).1 =
        Except.error (ApiError.forbidden "Not authorized to delete courses") ∧
      (delete_enrollment cu eid s).1 =
        Except.error (ApiError.forbidden "Not authorized to delete enrollments")) := by
  refine ⟨?_, ?_, ?_, ?_, ?_, ?_, ?_, ?_, ?_, ?_, ?_, ?_, ?_, ?_⟩
  · intro h; simp [update_student, h]
  · intro h; simp [update_instructor, h]
  · intro h; simp [update_course, h]
  · intro h; simp [update_enrollment, h]
  · intro h; simp [create_enrollment, h]
  · intro st hst hc; simp [create_enrollment, hst, hc]
  · intro st c hst hc h1 h2 h3
    simp only [create_enrollment, hst, hc]
    rw [if_pos (And.intro h1 (And.intro h2 h3))]
  · intro h1 h2
    simp only [create_student]
    rw [if_pos (And.intro h1 h2)]
  · intro hauth hdup
    have hna : ¬(cu.role ≠ UserRole.admin ∧ cu.id ≠ sc.user_id) := by tauto
    cases hfind : findStudentByNaturalKey s sc.student_id with
    | none => rw [hfind] at hdup; simp at hdup
    | some x => simp only [create_student, if_neg hna, hfind]
  · intro h
    simp only [create_instructor]
    rw [if_pos h]
  · intro hauth hdup
    have hna : ¬(cu.role ≠ UserRole.admin) := fun hh => hh hauth
    cases hfind : findInstructorByEmployeeId s ic.employee_id with
    | none => rw [hfind] at hdup; simp at hdup
    | some x => simp only [create_instructor, if_neg hna, hfind]
  · intro h
    simp only [create_course]
    rw [if_pos h]
  · intro hauth hdup
    have hna : ¬(cu.role ≠ UserRole.admin) := fun hh => hh hauth
    cases hfind : findCourseByCode s cc.course_code with
    | none => rw [hfind] at hdup; simp at hdup
    | some x => simp only [create_course, if_neg hna, hfind]
  · intro h
    refine ⟨?_, ?_, ?_, ?_⟩
    · simp [delete_student, h]
    · simp [delete_instructor, h]
    · simp [delete_course, h]
    · simp [delete_enrollment, h]

/-- C1 witness: the amended ordering facts evaluated at three concrete
configurations: the admin against `chainS7` with absent ids (404s, and
Conflicts on duplicate keys despite a missing referenced instructor), and
student user 4 against `chainS9` (404 for a missing enrollment student,
403s before every business rule — including enrollment creation on a pair
that already has an active duplicate — and 403 from every delete). -/
theorem c1_order_amended_witness :
    (update_student cAdmin 99 emptyStudentUpdate chainS7).1 =
      Except.error (ApiError.notFound "Student not found") ∧
    (update_instructor cAdmin 99 emptyInstructorUpdate chainS7).1 =
      Except.error (ApiError.notFound "Instructor not found") ∧
    (update_course cAdmin 99 emptyCourseUpdate chainS7).1 =
      Except.error (ApiError.notFound "Course not found") ∧
    (update_enrollment cAdmin 99 { status := none, grade := none } chainS7).1 =
      Except.error (ApiError.notFound "Enrollment not found") ∧
    (create_enrollment cStudBUser { student_id := 99, course_id := 1 } 0
        chainS9).1 =
      Except.error (ApiError.notFound "Student not found") ∧
    (create_enrollment cAdmin { student_id := 1, course_id := 99 } 0
        chainS7).1 =
      Except.error (ApiError.notFound "Course not found") ∧
    (create_enrollment cStudBUser { student_id := 1, course_id := 1 } 0
        chainS9).1 =
      Except.error (ApiError.forbidden "Not authorized to create enrollment") ∧
    (create_student cStudBUser
        { user_id := 99, student_id := "S9", date_of_birth := none,
          gender := none, address := none, emergency_contact := none,
          enrollment_date := 0 } chainS9).1 =
      Except.error (ApiError.forbidden "Not authorized to create student profile") ∧
    (create_student cAdmin mkStudA chainS7).1 =
      Except.error (ApiError.badRequest "Student ID already exists") ∧
    (create_instructor cStudBUser
        { user_id := 2, employee_id := "E9", department := "CS",
          hire_date := 0, salary := none, office_location := none }
        chainS9).1 =
      Except.error (ApiError.forbidden "Not authorized to create instructor profile") ∧
    (create_instructor cAdmin mkInstr chainS7).1 =
      Except.error (ApiError.badRequest "Employee ID already exists") ∧
    (create_course cStudBUser
        { course_code := "C9", title := "T9", description := none,
          credits := 3, instructor_id := 1, max_students := 30,
          status := CourseStatusEnum.active } 0 chainS9).1 =
      Except.error (ApiError.forbidden "Not authorized to create courses") ∧
    (create_course cAdmin
        { course_code := "C1", title := "Dup", description := none,
          credits := 3, instructor_id := 99, max_students := 30,
          status := CourseStatusEnum.active } 0 chainS7).1 =
      Except.error (ApiError.badRequest "Course code already exists") ∧
    (delete_student cStudBUser 1 chainS9).1 =
      Except.error (ApiError.forbidden "Not authorized to delete students") ∧
    (delete_instructor cStudBUser 1 chainS9).1 =
      Except.error (ApiError.forbidden "Not authorized to delete instructors") ∧
    (delete_course cStudBUser 1 chainS9).1 =
      Except.error (ApiError.forbidden "Not authorized to delete courses") ∧
    (delete_enrollment cStudBUser 1 chainS9).1 =
      Except.error (ApiError.forbidden "Not authorized to delete enrollments") := by
  have h1 := c1_order_amended cAdmin chainS7 99 99 99 99 emptyStudentUpdate
    emptyInstructorUpdate emptyCourseUpdate { status := none, grade := none }
    { student_id := 1, course_id := 99 } 0 mkStudA mkInstr
    { course_code := "C1", title := "Dup", description := none,
      credits := 3, instructor_id := 99, max_students := 30,
      status := CourseStatusEnum.active }
  have h2 := c1_order_amended cStudBUser chainS9 1 1 1 1 emptyStudentUpdate
    emptyInstructorUpdate emptyCourseUpdate { status := none, grade := none }
    { student_id := 99, course_id := 1 } 0
    { user_id := 99, student_id := "S9", date_of_birth := none,
      gender := none, address := none, emergency_contact := none,
      enrollment_date := 0 }
    { user_id := 2, employee_id := "E9", department := "CS", hire_date := 0,
      salary := none, office_location := none }
    { course_code := "C9", title := "T9", description := none, credits := 3,
      instructor_id := 1, max_students := 30,
      status := CourseStatusEnum.active }
  have h3 := c1_order_amended cStudBUser chainS9 1 1 1 1 emptyStudentUpdate
    emptyInstructorUpdate emptyCourseUpdate { status := none, grade := none }
    { student_id := 1, course_id := 1 } 0
    { user_id := 99, student_id := "S9", date_of_birth := none,
      gender := none, address := none, emergency_contact := none,
      enrollment_date := 0 }
    { user_id := 2, employee_id := "E9", department := "CS", hire_date := 0,
      salary := none, office_location := none }
    { course_code := "C9", title := "T9", description := none, credits := 3,
      instructor_id := 1, max_students := 30,
      status := CourseStatusEnum.active }
  have hd := h3.2.2.2.2.2.2.2.2.2.2.2.2.2 (by decide)
  exact ⟨h1.1 (by decide), h1.2.1 (by decide), h1.2.2.1 (by decide),
    h1.2.2.2.1 (by decide),
    h2.2.2.2.2.1 (by decide),
    h1.2.2.2.2.2.1 studentRow1 (by decide) (by decide),
    h3.2.2.2.2.2.2.1 studentRow1 courseRow1 (by decide) (by decide)
      (by decide) (by decide) (by decide),
    h3.2.2.2.2.2.2.2.1 (by decide) (by decide),
    h1.2.2.2.2.2.2.2.2.1 (Or.inl rfl) (by decide),
    h3.2.2.2.2.2.2.2.2.2.1 (by decide),
    h1.2.2.2.2.2.2.2.2.2.2.1 rfl (by decide),
    h3.2.2.2.2.2.2.2.2.2.2.2.1 (by decide),
    h1.2.2.2.2.2.2.2.2.2.2.2.2.1 rfl (by decide),
    hd.1, hd.2.1, hd.2.2.1, hd.2.2.2⟩

/-- C2 counterexample: a state reached from the empty store by a sequence of
successful API operations in which course 1 (capacity 1) has 2 enrolled
rows: the enrollment-update path re-enables a dropped enrollment without
any capacity check. -/
theorem c2_counterexample_capacity_exceeded_reachable :
    (register_user 0 regAdmin emptyStore).1 = Except.ok cAdmin ∧
    resultOk (register_user 0 regInstr chainS1).1 = true ∧
    resultOk (register_user 0 regStudA chainS2).1 = true ∧
    resultOk (register_user 0 regStudB chainS3).1 = true ∧
    resultOk (create_instructor cAdmin mkInstr chainS4).1 = true ∧
    resultOk (create_course cAdmin mkCourse 0 chainS5).1 = true ∧
    resultOk (create_student cAdmin mkStudA chainS6).1 = true ∧
    resultOk (create_student cAdmin mkStudB chainS7).1 = true ∧
    resultOk
      (create_enrollment cAdmin { student_id := 1, course_id := 1 } 0 chainS8).1
      = true ∧
    resultOk (update_enrollment cAdmin 1
      { status := some EnrollmentStatusEnum.dropped, grade := none } chainS9).1
      = true ∧
    resultOk
      (create_enrollment cAdmin { student_id := 2, course_id := 1 } 0 chainS10).1
      = true ∧
    resultOk (update_enrollment cAdmin 1
      { status := some EnrollmentStatusEnum.enrolled, grade := none } c2S11).1
      = true ∧
    (findCourseById c2S12 1).map (fun c => c.max_students) = some 1 ∧
    enrolledCount c2S12 1 = 2 := by
  refine ⟨rfl, rfl, rfl, rfl, rfl, rfl, rfl, rfl, rfl, rfl, rfl, rfl, rfl, rfl⟩

/-- C2 (amended): the capacity bound is enforced at creation time only.
Given that the target student and course exist, the caller is authorized
and no active duplicate exists, enrollment creation is rejected with
"Course is full" exactly when the enrolled count is ≥ max_students, and a
successful creation leaves the enrolled count ≤ max_students; the bound is
not an invariant of all reachable states because status updates bypass it. -/
theorem c2_capacity_at_creation (cu : UserRec) (d : EnrollmentCreate)
    (now : Nat) (s : Store) (st : StudentRec) (c : CourseRec)
    (hst : findStudentById s d.student_id = some st)
    (hc : findCourseById s d.course_id = some c)
    (hauth : ¬(cu.role ≠ UserRole.admin ∧ cu.id ≠ st.user_id ∧
      (findInstructorById s c.instructor_id).all
        (fun i => cu.id != i.user_id) = true))
    (hdup : findActiveEnrollment s d.student_id d.course_id = none) :
    ((create_enrollment cu d now s).1 =
        Except.error (ApiError.badRequest "Course is full")
      ↔ (enrolledCount s d.course_id : Int) ≥ c.max_students) ∧
    (∀ r, (create_enrollment cu d now s).1 = Except.ok r →
      (enrolledCount (create_enrollment cu d now s).2 d.course_id : Int)
        ≤ c.max_students) := by
  have hcount : enrolledCount
      { s with
        enrollments := s.enrollments ++
          [{ id := s.next_enrollment_id, student_id := d.student_id,
             course_id := d.course_id, enrollment_date := now,
             status := EnrollmentStatusEnum.enrolled, grade := none }],
        next_enrollment_id := s.next_enrollment_id + 1 } d.course_id
      = enrolledCount s d.course_id + 1 := by
    simp [enrolledCount, List.filter_append]
  by_cases hcap : (enrolledCount s d.course_id : Int) ≥ c.max_students
  · constructor
    · simp only [create_enrollment, hst, hc, if_neg hauth, hdup, if_pos hcap]
      exact ⟨fun _ => hcap, fun _ => by trivial⟩
    · intro r hr
      simp only [create_enrollment, hst, hc, if_neg hauth, hdup,
        if_pos hcap] at hr
      exact absurd hr (by simp)
  · constructor
    · simp only [create_enrollment, hst, hc, if_neg hauth, hdup, if_neg hcap]
      constructor
      · intro h; exact absurd h (by simp)
      · intro h; exact absurd h hcap
    · intro r hr
      simp only [create_enrollment, hst, hc, if_neg hauth, hdup, if_neg hcap]
      rw [hcount]
      omega

/-- C2 witness: the amended capacity statements evaluated at the concrete
store `chainS8` (capacity 1, zero enrolled), where the admin's request for
student 1 succeeds. -/
theorem c2_capacity_at_creation_witness :
    (((create_enrollment cAdmin { student_id := 1, course_id := 1 } 0 chainS8).1 =
        Except.error (ApiError.badRequest "Course is full")
      ↔ (enrolledCount chainS8 1 : Int) ≥ courseRow1.max_students) ∧
    (∀ r, (create_enrollment cAdmin { student_id := 1, course_id := 1 } 0 chainS8).1
        = Except.ok r →
      (enrolledCount
          (create_enrollment cAdmin { student_id := 1, course_id := 1 } 0 chainS8).2 1
        : Int) ≤ courseRow1.max_students)) := by
  exact c2_capacity_at_creation cAdmin { student_id := 1, course_id := 1 } 0
    chainS8 studentRow1 courseRow1 (by decide) (by decide) (by decide) (by decide)

/-- C3 counterexample: a state reached from the empty store by successful
API operations in which the pair (student 1, course 1) has two enrolled
rows: drop, re-enroll, then the admin re-enables the dropped row through
the update path, which has no active-duplicate check. -/
theorem c3_counterexample_duplicate_active_reachable :
    (register_user 0 regAdmin emptyStore).1 = Except.ok cAdmin ∧
    resultOk (register_user 0 regInstr chainS1).1 = true ∧
    resultOk (register_user 0 regStudA chainS2).1 = true ∧
    resultOk (register_user 0 regStudB chainS3).1 = true ∧
    resultOk (create_instructor cAdmin mkInstr chainS4).1 = true ∧
    resultOk (create_course cAdmin mkCourse 0 chainS5).1 = true ∧
    resultOk (create_student cAdmin mkStudA chainS6).1 = true ∧
    resultOk (create_student cAdmin mkStudB chainS7).1 = true ∧
    resultOk
      (create_enrollment cAdmin { student_id := 1, course_id := 1 } 0 chainS8).1
      = true ∧
    resultOk (update_enrollment cAdmin 1
      { status := some EnrollmentStatusEnum.dropped, grade := none } chainS9).1
      = true ∧
    resultOk
      (create_enrollment cAdmin { student_id := 1, course_id := 1 } 0 chainS10).1
      = true ∧
    resultOk (update_enrollment cAdmin 1
      { status := some EnrollmentStatusEnum.enrolled, grade := none } c3S11).1
      = true ∧
    activePairCount c3S12 1 1 = 2 := by
  refine ⟨rfl, rfl, rfl, rfl, rfl, rfl, rfl, rfl, rfl, rfl, rfl, rfl, rfl⟩

/-- C3 (amended): the at-most-one-active-enrollment rule is enforced at
creation time only.  Given the student and course exist and the caller is
authorized, creation is rejected with the already-enrolled conflict exactly
when an enrolled-status row exists for the pair, and succeeds when no such
row exists and the course has a free seat; the rule is not a reachable-state
invariant because status updates bypass the duplicate check. -/
theorem c3_active_duplicate_at_creation (cu : UserRec) (d : EnrollmentCreate)
    (now : Nat) (s : Store) (st : StudentRec) (c : CourseRec)
    (hst : findStudentById s d.student_id = some st)
    (hc : findCourseById s d.course_id = some c)
    (hauth : ¬(cu.role ≠ UserRole.admin ∧ cu.id ≠ st.user_id ∧
      (findInstructorById s c.instructor_id).all
        (fun i => cu.id != i.user_id) = true)) :
    ((create_enrollment cu d now s).1 =
        Except.error
          (ApiError.badRequest "Student is already enrolled in this course")
      ↔ (findActiveEnrollment s d.student_id d.course_id).isSome = true) ∧
    (findActiveEnrollment s d.student_id d.course_id = none →
      (enrolledCount s d.course_id : Int) < c.max_students →
      ∃ r, (create_enrollment cu d now s).1 = Except.ok r) := by
  cases hdup : findActiveEnrollment s d.student_id d.course_id with
  | some e =>
    constructor
    · simp only [create_enrollment, hst, hc, if_neg hauth, hdup]
      simp
    · intro h; exact absurd h (by simp [hdup])
  | none =>
    constructor
    · simp only [create_enrollment, hst, hc, if_neg hauth, hdup]
      by_cases hcap : (enrolledCount s d.course_id : Int) ≥ c.max_students
      · rw [if_pos hcap]; simp
      · rw [if_neg hcap]; simp
    · intro _ hlt
      have hcap : ¬((enrolledCount s d.course_id : Int) ≥ c.max_students) := by
        omega
      simp only [create_enrollment, hst, hc, if_neg hauth, hdup, if_neg hcap]
      exact ⟨_, rfl⟩

/-- C3 witness: the amended duplicate-check statements evaluated at the
concrete store `chainS9`, where student 1 already holds an active
enrollment in course 1, and hence a second request is a conflict. -/
theorem c3_active_duplicate_at_creation_witness :
    (((create_enrollment cAdmin { student_id := 1, course_id := 1 } 0 chainS9).1 =
        Except.error
          (ApiError.badRequest "Student is already enrolled in this course")
      ↔ (findActiveEnrollment chainS9 1 1).isSome = true) ∧
    (findActiveEnrollment chainS9 1 1 = none →
      (enrolledCount chainS9 1 : Int) < courseRow1.max_students →
      ∃ r, (create_enrollment cAdmin { student_id := 1, course_id := 1 } 0 chainS9).1
        = Except.ok r)) := by
  exact c3_active_duplicate_at_creation cAdmin { student_id := 1, course_id := 1 }
    0 chainS9 studentRow1 courseRow1 (by decide) (by decide) (by decide)

/-- C4: a non-admin principal owning the enrollment's student profile may
only set status to dropped: any other provided status value is rejected
with Forbidden and the store is unchanged, while status=dropped succeeds
and the enrollment's status becomes dropped. -/
theorem c4_student_owner_update (cu : UserRec) (eid : Nat)
    (upd : EnrollmentUpdate) (s : Store) (e : EnrollmentRec) (st : StudentRec)
    (he : findEnrollmentById s eid = some e)
    (hst : findStudentById s e.student_id = some st)
    (hadm : cu.role ≠ UserRole.admin)
    (hown : cu.id = st.user_id) :
    (∀ v, upd.status = some v → v ≠ EnrollmentStatusEnum.dropped →
      (update_enrollment cu eid upd s).1 =
        Except.error (ApiError.forbidden "Students can only drop courses") ∧
      (update_enrollment cu eid upd s).2 = s) ∧
    (upd.status = some EnrollmentStatusEnum.dropped →
      ∃ r, (update_enrollment cu eid upd s).1 = Except.ok r ∧
        r.status = EnrollmentStatusEnum.dropped ∧
        (update_enrollment cu eid upd s).2.enrollments =
          s.enrollments.map (fun x => if x.id == eid then r else x)) := by
  constructor
  · intro v hv hnd
    simp only [update_enrollment, he, if_neg hadm, hst, if_pos hown, hv,
      if_pos hnd]
    exact ⟨by trivial, by trivial⟩
  · intro hv
    simp only [update_enrollment, he, if_neg hadm, hst, if_pos hown, hv]
    simp only [ne_eq, not_true_eq_false, if_false, ite_false]
    exact ⟨_, rfl, rfl, rfl⟩

/-- C4 witness: in `chainS9`, student user 3 owns enrollment 1; setting
status=completed is Forbidden and changes nothing, setting status=dropped
succeeds and yields a dropped row. -/
theorem c4_student_owner_update_witness :
    ((update_enrollment cStudAUser 1
        { status := some EnrollmentStatusEnum.completed, grade := none }
        chainS9).1 =
      Except.error (ApiError.forbidden "Students can only drop courses") ∧
     (update_enrollment cStudAUser 1
        { status := some EnrollmentStatusEnum.completed, grade := none }
        chainS9).2 = chainS9) ∧
    (∃ r, (update_enrollment cStudAUser 1
        { status := some EnrollmentStatusEnum.dropped, grade := none }
        chainS9).1 = Except.ok r ∧
      r.status = EnrollmentStatusEnum.dropped ∧
      (update_enrollment cStudAUser 1
        { status := some EnrollmentStatusEnum.dropped, grade := none }
        chainS9).2.enrollments =
        chainS9.enrollments.map (fun x => if x.id == 1 then r else x)) := by
  have h1 := c4_student_owner_update cStudAUser 1
    { status := some EnrollmentStatusEnum.completed, grade := none }
    chainS9 enrollRow1 studentRow1 (by decide) (by decide) (by decide) (by decide)
  have h2 := c4_student_owner_update cStudAUser 1
    { status := some EnrollmentStatusEnum.dropped, grade := none }
    chainS9 enrollRow1 studentRow1 (by decide) (by decide) (by decide) (by decide)
  exact ⟨h1.1 EnrollmentStatusEnum.completed rfl (by decide), h2.2 rfl⟩

/-- C5: creating a User/Student/Instructor/Course whose natural key (email /
student_id / employee_id / course_code) is already present fails with the
conflict error and leaves the store unchanged, for every value of the other
payload fields; for the three profile/course creations the caller must
first pass the authorization gate, which the handlers check before the
uniqueness check. -/
theorem c5_natural_key_conflict (now : Nat) (uc : UserCreate) (cu : UserRec)
    (sc : StudentCreate) (ic : InstructorCreate) (cc : CourseCreate)
    (s : Store) :
    ((findUserByEmail s uc.email).isSome = true →
      (register_user now uc s).1 =
        Except.error (ApiError.badRequest "Email already registered") ∧
      (register_user now uc s).2 = s) ∧
    ((cu.role = UserRole.admin ∨ cu.id = sc.user_id) →
      (findStudentByNaturalKey s sc.student_id).isSome = true →
      (create_student cu sc s).1 =
        Except.error (ApiError.badRequest "Student ID already exists") ∧
      (create_student cu sc s).2 = s) ∧
    (cu.role = UserRole.admin →
      (findInstructorByEmployeeId s ic.employee_id).isSome = true →
      (create_instructor cu ic s).1 =
        Except.error (ApiError.badRequest "Employee ID already exists") ∧
      (create_instructor cu ic s).2 = s) ∧
    (cu.role = UserRole.admin →
      (findCourseByCode s cc.course_code).isSome = true →
      (create_course cu cc now s).1 =
        Except.error (ApiError.badRequest "Course code already exists") ∧
      (create_course cu cc now s).2 = s) := by
  refine ⟨?_, ?_, ?_, ?_⟩
  · intro hdup
    cases hfind : findUserByEmail s uc.email with
    | none => rw [hfind] at hdup; simp at hdup
    | some u =>
      simp only [register_user, hfind]
      exact ⟨by trivial, by trivial⟩
  · intro hauth hdup
    have hna : ¬(cu.role ≠ UserRole.admin ∧ cu.id ≠ sc.user_id) := by tauto
    cases hfind : findStudentByNaturalKey s sc.student_id with
    | none => rw [hfind] at hdup; simp at hdup
    | some x =>
      simp only [create_student, if_neg hna, hfind]
      exact ⟨by trivial, by trivial⟩
  · intro hauth hdup
    have hna : ¬(cu.role ≠ UserRole.admin) := fun hh => hh hauth
    cases hfind : findInstructorByEmployeeId s ic.employee_id with
    | none => rw [hfind] at hdup; simp at hdup
    | some x =>
      simp only [create_instructor, if_neg hna, hfind]
      exact ⟨by trivial, by trivial⟩
  · intro hauth hdup
    have hna : ¬(cu.role ≠ UserRole.admin) := fun hh => hh hauth
    cases hfind : findCourseByCode s cc.course_code with
    | none => rw [hfind] at hdup; simp at hdup
    | some x =>
      simp only [create_course, if_neg hna, hfind]
      exact ⟨by trivial, by trivial⟩

/-- C5 witness: in `chainS8` the email "a@x", student_id "S1", employee_id
"E1" and course_code "C1" are taken; duplicate creations with entirely
different other fields all yield the conflict error and leave the store
unchanged. -/
theorem c5_natural_key_conflict_witness :
    ((register_user 7
        { email := "a@x", first_name := "Zoe", last_name := "New",
          phone := some "555", role := UserRole.student, password := "zz" }
        chainS8).1 =
      Except.error (ApiError.badRequest "Email already registered") ∧
     (register_user 7
        { email := "a@x", first_name := "Zoe", last_name := "New",
          phone := some "555", role := UserRole.student, password := "zz" }
        chainS8).2 = chainS8) ∧
    ((create_student cAdmin
        { user_id := 4, student_id := "S1", date_of_birth := some 5,
          gender := some GenderEnum.other, address := some "elm",
          emergency_contact := none, enrollment_date := 9 } chainS8).1 =
      Except.error (ApiError.badRequest "Student ID already exists") ∧
     (create_student cAdmin
        { user_id := 4, student_id := "S1", date_of_birth := some 5,
          gender := some GenderEnum.other, address := some "elm",
          emergency_contact := none, enrollment_date := 9 } chainS8).2
       = chainS8) ∧
    ((create_instructor cAdmin
        { user_id := 2, employee_id := "E1", department := "Math",
          hire_date := 3, salary := none, office_location := some "B2" }
        chainS8).1 =
      Except.error (ApiError.badRequest "Employee ID already exists") ∧
     (create_instructor cAdmin
        { user_id := 2, employee_id := "E1", department := "Math",
          hire_date := 3, salary := none, office_location := some "B2" }
        chainS8).2 = chainS8) ∧
    ((create_course cAdmin
        { course_code := "C1", title := "Sets", description := some "d",
          credits := 5, instructor_id := 1, max_students := 99,
          status := CourseStatusEnum.inactive } 7 chainS8).1 =
      Except.error (ApiError.badRequest "Course code already exists") ∧
     (create_course cAdmin
        { course_code := "C1", title := "Sets", description := some "d",
          credits := 5, instructor_id := 1, max_students := 99,
          status := CourseStatusEnum.inactive } 7 chainS8).2 = chainS8) := by
  have h := c5_natural_key_conflict 7
    { email := "a@x", first_name := "Zoe", last_name := "New",
      phone := some "555", role := UserRole.student, password := "zz" }
    cAdmin
    { user_id := 4, student_id := "S1", date_of_birth := some 5,
      gender := some GenderEnum.other, address := some "elm",
      emergency_contact := none, enrollment_date := 9 }
    { user_id := 2, employee_id := "E1", department := "Math",
      hire_date := 3, salary := none, office_location := some "B2" }
    { course_code := "C1", title := "Sets", description := some "d",
      credits := 5, instructor_id := 1, max_students := 99,
      status := CourseStatusEnum.inactive }
    chainS8
  exact ⟨h.1 (by decide), h.2.1 (Or.inl rfl) (by decide),
    h.2.2.1 rfl (by decide), h.2.2.2 rfl (by decide)⟩

/-- C6: Student creation whose user_id references an existing User whose
role is not STUDENT, and Instructor creation whose user_id references an
existing User whose role is not INSTRUCTOR, fail with the role-mismatch
validation error and insert nothing (given the caller passed the
authorization gate and the natural key is fresh, the checks evaluated
earlier by the handler). -/
theorem c6_role_mismatch_rejected (cu : UserRec) (sc : StudentCreate)
    (ic : InstructorCreate) (s : Store) (u v : UserRec) :
    ((cu.role = UserRole.admin ∨ cu.id = sc.user_id) →
      findStudentByNaturalKey s sc.student_id = none →
      findUserById s sc.user_id = some u →
      u.role ≠ UserRole.student →
      (create_student cu sc s).1 =
        Except.error (ApiError.badRequest "User must have student role") ∧
      (create_student cu sc s).2 = s) ∧
    (cu.role = UserRole.admin →
      findInstructorByEmployeeId s ic.employee_id = none →
      findUserById s ic.user_id = some v →
      v.role ≠ UserRole.instructor →
      (create_instructor cu ic s).1 =
        Except.error (ApiError.badRequest "User must have instructor role") ∧
      (create_instructor cu ic s).2 = s) := by
  constructor
  · intro hauth hfresh huser hrole
    have hna : ¬(cu.role ≠ UserRole.admin ∧ cu.id ≠ sc.user_id) := by tauto
    simp only [create_student, if_neg hna, hfresh, huser, if_pos hrole]
    exact ⟨by trivial, by trivial⟩
  · intro hauth hfresh huser hrole
    have hna : ¬(cu.role ≠ UserRole.admin) := fun hh => hh hauth
    simp only [create_instructor, if_neg hna, hfresh, huser, if_pos hrole]
    exact ⟨by trivial, by trivial⟩

/-- C6 witness: in `chainS8`, creating a student profile for user 2 (an
instructor) and an instructor profile for user 3 (a student) both fail
with the role-mismatch error and leave the store unchanged. -/
theorem c6_role_mismatch_rejected_witness :
    ((create_student cAdmin
        { user_id := 2, student_id := "S9", date_of_birth := none,
          gender := none, address := none, emergency_contact := none,
          enrollment_date := 0 } chainS8).1 =
      Except.error (ApiError.badRequest "User must have student role") ∧
     (create_student cAdmin
        { user_id := 2, student_id := "S9", date_of_birth := none,
          gender := none, address := none, emergency_contact := none,
          enrollment_date := 0 } chainS8).2 = chainS8) ∧
    ((create_instructor cAdmin
        { user_id := 3, employee_id := "E9", department := "CS",
          hire_date := 0, salary := none, office_location := none }
        chainS8).1 =
      Except.error (ApiError.badRequest "User must have instructor role") ∧
     (create_instructor cAdmin
        { user_id := 3, employee_id := "E9", department := "CS",
          hire_date := 0, salary := none, office_location := none }
        chainS8).2 = chainS8) := by
  have h := c6_role_mismatch_rejected cAdmin
    { user_id := 2, student_id := "S9", date_of_birth := none,
      gender := none, address := none, emergency_contact := none,
      enrollment_date := 0 }
    { user_id := 3, employee_id := "E9", department := "CS",
      hire_date := 0, salary := none, office_location := none }
    chainS8 cInstrUser cStudAUser
  exact ⟨h.1 (Or.inl rfl) (by decide) (by decide) (by decide),
    h.2 rfl (by decide) (by decide) (by decide)⟩

/-- C7: every update handler applies exactly the provided payload fields:
whenever an update succeeds, each field of the returned row equals the
payload value when the field was provided and the previous stored value
when it was not, and the fields the payload model does not contain (ids,
natural keys, dates) are always unchanged. -/
theorem c7_partial_update_frame (cu : UserRec) (s : Store)
    (sid iid cid eid : Nat) (su : StudentUpdate) (iu : InstructorUpdate)
    (cud : CourseUpdate) (eu : EnrollmentUpdate)
    (st0 : StudentRec) (i0 : InstructorRec) (c0 : CourseRec)
    (e0 : EnrollmentRec)
    (hst : findStudentById s sid = some st0)
    (hi : findInstructorById s iid = some i0)
    (hc : findCourseById s cid = some c0)
    (he : findEnrollmentById s eid = some e0) :
    (∀ r, (update_student cu sid su s).1 = Except.ok r →
      r.id = st0.id ∧ r.user_id = st0.user_id ∧
      r.student_id = st0.student_id ∧
      r.date_of_birth =
        (match su.date_of_birth with
          | some v => some v | none => st0.date_of_birth) ∧
      r.gender = (match su.gender with | some v => some v | none => st0.gender) ∧
      r.address =
        (match su.address with | some v => some v | none => st0.address) ∧
      r.emergency_contact =
        (match su.emergency_contact with
          | some v => some v | none => st0.emergency_contact) ∧
      r.enrollment_date = st0.enrollment_date) ∧
    (∀ r, (update_instructor cu iid iu s).1 = Except.ok r →
      r.id = i0.id ∧ r.user_id = i0.user_id ∧
      r.employee_id = i0.employee_id ∧
      r.department =
        (match iu.department with | some v => v | none => i0.department) ∧
      r.hire_date = i0.hire_date ∧
      r.salary = (match iu.salary with | some v => some v | none => i0.salary) ∧
      r.office_location =
        (match iu.office_location with
          | some v => some v | none => i0.office_location)) ∧
    (∀ r, (update_course cu cid cud s).1 = Except.ok r →
      r.id = c0.id ∧ r.course_code = c0.course_code ∧
      r.title = (match cud.title with | some v => v | none => c0.title) ∧
      r.description =
        (match cud.description with
          | some v => some v | none => c0.description) ∧
      r.credits = (match cud.credits with | some v => v | none => c0.credits) ∧
      r.instructor_id =
        (match cud.instructor_id with
          | some v => v | none => c0.instructor_id) ∧
      r.max_students =
        (match cud.max_students with
          | some v => v | none => c0.max_students) ∧
      r.status = (match cud.status with | some v => v | none => c0.status) ∧
      r.created_at = c0.created_at) ∧
    (∀ r, (update_enrollment cu eid eu s).1 = Except.ok r →
      r.id = e0.id ∧ r.student_id = e0.student_id ∧
      r.course_id = e0.course_id ∧
      r.enrollment_date = e0.enrollment_date ∧
      r.status = (match eu.status with | some v => v | none => e0.status) ∧
      r.grade = (match eu.grade with | some v => some v | none => e0.grade)) := by
  refine ⟨?_, ?_, ?_, ?_⟩
  · intro r hr
    simp only [update_student, hst] at hr
    split at hr
    · exact Except.noConfusion hr
    · have hru := Except.ok.inj hr
      subst hru
      exact ⟨rfl, rfl, rfl, rfl, rfl, rfl, rfl, rfl⟩
  · intro r hr
    simp only [update_instructor, hi] at hr
    split at hr
    · exact Except.noConfusion hr
    · have hru := Except.ok.inj hr
      subst hru
      exact ⟨rfl, rfl, rfl, rfl, rfl, rfl, rfl⟩
  · intro r hr
    simp only [update_course, hc] at hr
    split at hr
    · exact Except.noConfusion hr
    · have hru := Except.ok.inj hr
      subst hru
      exact ⟨rfl, rfl, rfl, rfl, rfl, rfl, rfl, rfl, rfl⟩
  · intro r hr
    simp only [update_enrollment, he] at hr
    repeat' split at hr
    all_goals
      first
      | exact Except.noConfusion hr
      | (have hru := Except.ok.inj hr
         subst hru
         simp_all)

/-- C7 witness: in `chainS9`, admin updates providing a single field each —
in particular an enrollment update providing only grade "A" — change
exactly that field of the respective row. -/
theorem c7_partial_update_frame_witness :
    (updatedStudentRow.id = studentRow1.id ∧
     updatedStudentRow.user_id = studentRow1.user_id ∧
     updatedStudentRow.student_id = studentRow1.student_id ∧
     updatedStudentRow.date_of_birth = studentRow1.date_of_birth ∧
     updatedStudentRow.gender = studentRow1.gender ∧
     updatedStudentRow.address = some "elm2" ∧
     updatedStudentRow.emergency_contact = studentRow1.emergency_contact ∧
     updatedStudentRow.enrollment_date = studentRow1.enrollment_date) ∧
    (updatedInstructorRow.id = instructorRow1.id ∧
     updatedInstructorRow.user_id = instructorRow1.user_id ∧
     updatedInstructorRow.employee_id = instructorRow1.employee_id ∧
     updatedInstructorRow.department = instructorRow1.department ∧
     updatedInstructorRow.hire_date = instructorRow1.hire_date ∧
     updatedInstructorRow.salary = some 5 ∧
     updatedInstructorRow.office_location = instructorRow1.office_location) ∧
    (updatedCourseRow.id = courseRow1.id ∧
     updatedCourseRow.course_code = courseRow1.course_code ∧
     updatedCourseRow.title = "NewT" ∧
     updatedCourseRow.description = courseRow1.description ∧
     updatedCourseRow.credits = courseRow1.credits ∧
     updatedCourseRow.instructor_id = courseRow1.instructor_id ∧
     updatedCourseRow.max_students = courseRow1.max_students ∧
     updatedCourseRow.status = courseRow1.status ∧
     updatedCourseRow.created_at = courseRow1.created_at) ∧
    (updatedEnrollRow.id = enrollRow1.id ∧
     updatedEnrollRow.student_id = enrollRow1.student_id ∧
     updatedEnrollRow.course_id = enrollRow1.course_id ∧
     updatedEnrollRow.enrollment_date = enrollRow1.enrollment_date ∧
     updatedEnrollRow.status = enrollRow1.status ∧
     updatedEnrollRow.grade = some "A") := by
  have h := c7_partial_update_frame cAdmin chainS9 1 1 1 1
    { date_of_birth := none, gender := none, address := some "elm2",
      emergency_contact := none }
    { department := none, salary := some 5, office_location := none }
    { title := some "NewT", description := none, credits := none,
      instructor_id := none, max_students := none, status := none }
    { status := none, grade := some "A" }
    studentRow1 instructorRow1 courseRow1 enrollRow1
    (by decide) (by decide) (by decide) (by decide)
  exact ⟨h.1 updatedStudentRow rfl, h.2.1 updatedInstructorRow rfl,
    h.2.2.1 updatedCourseRow rfl, h.2.2.2 updatedEnrollRow rfl⟩

/-- C8: every mutating handler leaves the store exactly as it was whenever
it returns an error — no entity is created, modified or deleted on any
error path (each handler raises before any commit), so a multi-field
update applies all provided fields (C7) or none. -/
theorem c8_errors_leave_store_unchanged (now : Nat) (cu : UserRec)
    (uc : UserCreate) (sc : StudentCreate) (ic : InstructorCreate)
    (cc : CourseCreate) (ec : EnrollmentCreate) (su : StudentUpdate)
    (iu : InstructorUpdate) (cud : CourseUpdate) (eu : EnrollmentUpdate)
    (sid iid cid eid : Nat) (s : Store) :
    (∀ err, (register_user now uc s).1 = Except.error err →
      (register_user now uc s).2 = s) ∧
    (∀ err, (create_student cu sc s).1 = Except.error err →
      (create_student cu sc s).2 = s) ∧
    (∀ err, (update_student cu sid su s).1 = Except.error err →
      (update_student cu sid su s).2 = s) ∧
    (∀ err, (delete_student cu sid s).1 = Except.error err →
      (delete_student cu sid s).2 = s) ∧
    (∀ err, (create_instructor cu ic s).1 = Except.error err →
      (create_instructor cu ic s).2 = s) ∧
    (∀ err, (update_instructor cu iid iu s).1 = Except.error err →
      (update_instructor cu iid iu s).2 = s) ∧
    (∀ err, (delete_instructor cu iid s).1 = Except.error err →
      (delete_instructor cu iid s).2 = s) ∧
    (∀ err, (create_course cu cc now s).1 = Except.error err →
      (create_course cu cc now s).2 = s) ∧
    (∀ err, (update_course cu cid cud s).1 = Except.error err →
      (update_course cu cid cud s).2 = s) ∧
    (∀ err, (delete_course cu cid s).1 = Except.error err →
      (delete_course cu cid s).2 = s) ∧
    (∀ err, (create_enrollment cu ec now s).1 = Except.error err →
      (create_enrollment cu ec now s).2 = s) ∧
    (∀ err, (update_enrollment cu eid eu s).1 = Except.error err →
      (update_enrollment cu eid eu s).2 = s) ∧
    (∀ err, (delete_enrollment cu eid s).1 = Except.error err →
      (delete_enrollment cu eid s).2 = s) := by
  refine ⟨?_, ?_, ?_, ?_, ?_, ?_, ?_, ?_, ?_, ?_, ?_, ?_, ?_⟩
  all_goals intro err herr
  · simp only [register_user] at herr ⊢
    repeat' split at herr
    all_goals simp_all
  · simp only [create_student] at herr ⊢
    repeat' split at herr
    all_goals repeat' split
    all_goals simp_all
  · simp only [update_student] at herr ⊢
    repeat' split at herr
    all_goals repeat' split
    all_goals simp_all
  · simp only [delete_student] at herr ⊢
    repeat' split at herr
    all_goals repeat' split
    all_goals simp_all
  · simp only [create_instructor] at herr ⊢
    repeat' split at herr
    all_goals repeat' split
    all_goals simp_all
  · simp only [update_instructor] at herr ⊢
    repeat' split at herr
    all_goals repeat' split
    all_goals simp_all
  · simp only [delete_instructor] at herr ⊢
    repeat' split at herr
    all_goals repeat' split
    all_goals simp_all
  · simp only [create_course] at herr ⊢
    repeat' split at herr
    all_goals repeat' split
    all_goals simp_all
  · simp only [update_course] at herr ⊢
    repeat' split at herr
    all_goals repeat' split
    all_goals simp_all
  · simp only [delete_course] at herr ⊢
    repeat' split at herr
    all_goals repeat' split
    all_goals simp_all
  · simp only [create_enrollment] at herr ⊢
    repeat' split at herr
    all_goals repeat' split
    all_goals simp_all
  · simp only [update_enrollment] at herr ⊢
    repeat' split at herr
    all_goals repeat' split
    all_goals simp_all
  · simp only [delete_enrollment] at herr ⊢
    repeat' split at herr
    all_goals repeat' split
    all_goals simp_all

/-- C8 witness: thirteen concrete erroring requests against the store
`chainS4` (duplicate email, missing targets, non-admin deletes, …) all
leave the store equal to `chainS4`. -/
theorem c8_errors_leave_store_unchanged_witness :
    (register_user 0 regAdmin chainS4).2 = chainS4 ∧
    (create_student cStudAUser
      { user_id := 1, student_id := "S9", date_of_birth := none,
        gender := none, address := none, emergency_contact := none,
        enrollment_date := 0 } chainS4).2 = chainS4 ∧
    (update_student cStudAUser 1 emptyStudentUpdate chainS4).2 = chainS4 ∧
    (delete_student cStudAUser 1 chainS4).2 = chainS4 ∧
    (create_instructor cStudAUser
      { user_id := 2, employee_id := "E9", department := "CS",
        hire_date := 0, salary := none, office_location := none }
      chainS4).2 = chainS4 ∧
    (update_instructor cStudAUser 1 emptyInstructorUpdate chainS4).2 = chainS4 ∧
    (delete_instructor cStudAUser 1 chainS4).2 = chainS4 ∧
    (create_course cStudAUser mkCourse 0 chainS4).2 = chainS4 ∧
    (update_course cStudAUser 1 emptyCourseUpdate chainS4).2 = chainS4 ∧
    (delete_course cStudAUser 1 chainS4).2 = chainS4 ∧
    (create_enrollment cStudAUser { student_id := 1, course_id := 1 } 0
      chainS4).2 = chainS4 ∧
    (update_enrollment cStudAUser 1 { status := none, grade := none }
      chainS4).2 = chainS4 ∧
    (delete_enrollment cStudAUser 1 chainS4).2 = chainS4 := by
  have h := c8_errors_leave_store_unchanged 0 cStudAUser regAdmin
    { user_id := 1, student_id := "S9", date_of_birth := none,
      gender := none, address := none, emergency_contact := none,
      enrollment_date := 0 }
    { user_id := 2, employee_id := "E9", department := "CS",
      hire_date := 0, salary := none, office_location := none }
    mkCourse { student_id := 1, course_id := 1 }
    emptyStudentUpdate emptyInstructorUpdate emptyCourseUpdate
    { status := none, grade := none } 1 1 1 1 chainS4
  exact ⟨h.1 (ApiError.badRequest "Email already registered") rfl,
    h.2.1 (ApiError.forbidden "Not authorized to create student profile") rfl,
    h.2.2.1 (ApiError.notFound "Student not found") rfl,
    h.2.2.2.1 (ApiError.forbidden "Not authorized to delete students") rfl,
    h.2.2.2.2.1
      (ApiError.forbidden "Not authorized to create instructor profile") rfl,
    h.2.2.2.2.2.1 (ApiError.notFound "Instructor not found") rfl,
    h.2.2.2.2.2.2.1
      (ApiError.forbidden "Not authorized to delete instructors") rfl,
    h.2.2.2.2.2.2.2.1
      (ApiError.forbidden "Not authorized to create courses") rfl,
    h.2.2.2.2.2.2.2.2.1 (ApiError.notFound "Course not found") rfl,
    h.2.2.2.2.2.2.2.2.2.1
      (ApiError.forbidden "Not authorized to delete courses") rfl,
    h.2.2.2.2.2.2.2.2.2.2.1 (ApiError.notFound "Student not found") rfl,
    h.2.2.2.2.2.2.2.2.2.2.2.1 (ApiError.notFound "Enrollment not found") rfl,
    h.2.2.2.2.2.2.2.2.2.2.2.2
      (ApiError.forbidden "Not authorized to delete enrollments") rfl⟩

/-- C9: the instructor read endpoints perform no authorization check: their
outcome is identical for every authenticated principal, the list endpoint
returns the page of full stored rows (which carry the salary field), and
the single read returns the full stored row when present — its only
failure is NotFound when the id is absent. -/
theorem c9_instructor_reads_unrestricted (cu cv : UserRec)
    (iid skip limit : Nat) (s : Store) :
    get_instructors cu skip limit s = get_instructors cv skip limit s ∧
    (get_instructors cu skip limit s).1 =
      Except.ok ((s.instructors.drop skip).take limit) ∧
    get_instructor cu iid s = get_instructor cv iid s ∧
    (∀ i, findInstructorById s iid = some i →
      (get_instructor cu iid s).1 = Except.ok i ∧
      (∃ sal, i.salary = sal)) ∧
    (findInstructorById s iid = none →
      (get_instructor cu iid s).1 =
        Except.error (ApiError.notFound "Instructor not found")) := by
  refine ⟨rfl, rfl, ?_, ?_, ?_⟩
  · cases h : findInstructorById s iid <;> simp [get_instructor, h]
  · intro i hi
    exact ⟨by simp [get_instructor, hi], ⟨i.salary, rfl⟩⟩
  · intro h
    simp [get_instructor, h]

/-- C9 witness: in `chainS9` the student principal reads instructor 1 and
obtains the full row (salary included); in `chainS4` the read of the
absent instructor 1 is NotFound; both reads coincide with the admin's. -/
theorem c9_instructor_reads_unrestricted_witness :
    get_instructors cStudAUser 0 100 chainS9 =
      get_instructors cAdmin 0 100 chainS9 ∧
    (get_instructors cStudAUser 0 100 chainS9).1 =
      Except.ok ((chainS9.instructors.drop 0).take 100) ∧
    get_instructor cStudAUser 1 chainS9 = get_instructor cAdmin 1 chainS9 ∧
    ((get_instructor cStudAUser 1 chainS9).1 = Except.ok instructorRow1 ∧
      (∃ sal, instructorRow1.salary = sal)) ∧
    (get_instructor cStudAUser 1 chainS4).1 =
      Except.error (ApiError.notFound "Instructor not found") := by
  have h1 := c9_instructor_reads_unrestricted cStudAUser cAdmin 1 0 100 chainS9
  have h2 := c9_instructor_reads_unrestricted cStudAUser cAdmin 1 0 100 chainS4
  exact ⟨h1.1, h1.2.1, h1.2.2.1, h1.2.2.2.1 instructorRow1 (by decide),
    h2.2.2.2.2 (by decide)⟩

/-- C10: every successfully created enrollment starts with status=enrolled,
no grade, and the creation-time clock as enrollment_date, for every caller
and payload — the payload carries only student_id and course_id, so no
caller can choose the initial status or grade. -/
theorem c10_new_enrollment_defaults (cu : UserRec) (d : EnrollmentCreate)
    (now : Nat) (s : Store) :
    ∀ r, (create_enrollment cu d now s).1 = Except.ok r →
      r.status = EnrollmentStatusEnum.enrolled ∧ r.grade = none ∧
      r.enrollment_date = now ∧ r.student_id = d.student_id ∧
      r.course_id = d.course_id := by
  intro r hr
  simp only [create_enrollment] at hr
  repeat' split at hr
  all_goals
    first
    | exact Except.noConfusion hr
    | (have hru := Except.ok.inj hr
       subst hru
       exact ⟨rfl, rfl, rfl, rfl, rfl⟩)

/-- C10 witness: the enrollment created at clock 42 in `chainS8` has
status=enrolled, no grade, and enrollment_date 42. -/
theorem c10_new_enrollment_defaults_witness :
    ({ id := 1, student_id := 1, course_id := 1, enrollment_date := 42,
       status := EnrollmentStatusEnum.enrolled, grade := none }
        : EnrollmentRec).status = EnrollmentStatusEnum.enrolled ∧
    ({ id := 1, student_id := 1, course_id := 1, enrollment_date := 42,
       status := EnrollmentStatusEnum.enrolled, grade := none }
        : EnrollmentRec).grade = none ∧
    ({ id := 1, student_id := 1, course_id := 1, enrollment_date := 42,
       status := EnrollmentStatusEnum.enrolled, grade := none }
        : EnrollmentRec).enrollment_date = 42 ∧
    ({ id := 1, student_id := 1, course_id := 1, enrollment_date := 42,
       status := EnrollmentStatusEnum.enrolled, grade := none }
        : EnrollmentRec).student_id = 1 ∧
    ({ id := 1, student_id := 1, course_id := 1, enrollment_date := 42,
       status := EnrollmentStatusEnum.enrolled, grade := none }
        : EnrollmentRec).course_id = 1 :=
  c10_new_enrollment_defaults cAdmin { student_id := 1, course_id := 1 } 42
    chainS8
    { id := 1, student_id := 1, course_id := 1, enrollment_date := 42,
      status := EnrollmentStatusEnum.enrolled, grade := none } rfl

end UMS
